import Mathlib

/-!
Verification of the ASG instance-refresh orchestrator
(src/asg-instance-refresh/autoscaling_groups_deployment.py).

The development shallowly embeds the orchestrator in Lean:

* `Instance` mirrors the frozen dataclass `Instance` (note: at runtime the
  `id` field holds the AWS instance-id string handed over by the API, so it
  is modelled as `String`).
* The blue-green deployment (`start_blue_green_deployment`) is modelled as a
  straight-line program over an explicit state `Eff` that records the remote
  group configuration (`CPState`), the emitted control-plane calls and local
  log lines (`Event` trace), the `contextlib.ExitStack` callback list
  (`Restore`, pushed LIFO exactly as `stack.callback` does, executed
  front-to-back of that list on scope exit, i.e. in reverse registration
  order), and a failure-injection fuel: each remote interaction consumes one
  fuel unit, and an exhausted fuel raises at that point, modelling a
  `TimeoutError`/client error in that step.  The `Event` alphabet also names
  the `SuspendProcesses`/`ResumeProcesses` control-plane operations so that
  their absence from every trace is expressible.
* `wait_with_timeout` is the bounded poller (decorator of lines 41-62) over a
  probe indexed by the iteration counter; the per-wait probe conditions of
  `wait_group_size_until`, `wait_instance_size_until`, `wait_warm_pool_for`
  and `wait_instances_for` are the `*_ready` predicates.
* Version resolution (`launch_template_version`,
  `update_launch_template_version`), the convergence predicate `is_updated`
  and the top-level dispatch `refresh_instance` are modelled over an `ASG`
  state carrying the launch-template reference and version bookkeeping.  The
  selected protocol's externally driven effect on group sizes and membership
  is abstracted by a `ProtoOutcome` parameter (protocols mutate sizes and
  membership only), and its execution is recorded as a `protocolExecution`
  event; the protocol bodies themselves are verified separately on the `Eff`
  model.
-/

/-- Mirror of the frozen dataclass `Instance` (lines 25-38): at runtime
`InstanceId` is the AWS instance-id string. -/
structure Instance where
  id : String
  version : String
  state : String
  protected_from_scale_in : Bool
  deriving DecidableEq

/-- The conditions the blue-green protocol waits on, with their parameters
(the wrapped probes of lines 181-223). -/
inductive WaitKind where
  | groupSize (size : Nat)
  | instanceSize (size : Nat)
  | warmPoolFor (states : List String)
  | instancesFor (states : List String)
  deriving DecidableEq

/-- Observable actions of the orchestrator: control-plane mutations, the
polls it blocks on, and the local log lines of `suspend_processes` /
`resume_processes` (which, in the source, are the bodies of those methods).
`suspendProcessesCall` / `resumeProcessesCall` name the control-plane
operations of the same name; they are part of the alphabet so theorems can
state whether they are ever issued. -/
inductive Event where
  | updateAsg (payload : List (String × Nat))
  | wait (w : WaitKind)
  | logSuspend (processes : List String)
  | logResume (processes : List String)
  | suspendProcessesCall (processes : List String)
  | resumeProcessesCall (processes : List String)
  | setInstanceProtection (instanceIds : List String) (protectedFromScaleIn : Bool)
  | modifyLaunchTemplateDefault (version : String)
  | updateGroupLaunchTemplate (version : String)
  | startInstanceRefresh (strategy : String) (minHealthyPercentage : Nat)
  | protocolExecution (kind : String)
  deriving DecidableEq

/-- The restore actions registered on the `ExitStack` (lines 356-359 and
374): `partial(self.update_group_size, max_size=..., min_size=...)` and
`partial(self.resume_processes, ...)`. -/
inductive Restore where
  | restoreSize (maxSize minSize : Nat)
  | resumeProcs (processes : List String)
  deriving DecidableEq

/-- The remote group configuration the orchestrator mutates:
`(desiredCapacity, minSize, maxSize)` as read by `group_size` (lines
154-164). -/
structure CPState where
  desiredCapacity : Nat
  minSize : Nat
  maxSize : Nat
  deriving DecidableEq

/-- Execution state of the blue-green protocol model: remote configuration,
emitted events, the `ExitStack` callbacks (most recently registered first,
as `contextlib` stores them), failure-injection fuel, and whether an
exception has been raised. -/
structure Eff where
  cp : CPState
  trace : List Event
  callbacks : List Restore
  fuel : Option Nat
  raised : Bool
  deriving DecidableEq

/-- Failure injection on one remote interaction: `none` never raises,
`some 0` raises now, `some (n+1)` leaves `n` interactions before the
injected failure. -/
def tick_fuel : Option Nat → Option Nat × Bool
  | none => (none, false)
  | some 0 => (some 0, true)
  | some (n + 1) => (some n, false)

/-- Consume one unit of failure-injection fuel before a remote interaction. -/
def tick (s : Eff) : Eff :=
  { s with fuel := (tick_fuel s.fuel).1, raised := s.raised || (tick_fuel s.fuel).2 }

/-- One optional entry of the `update_auto_scaling_group` kwargs dict. -/
def size_entry (key : String) : Option Nat → List (String × Nat)
  | some v => [(key, v)]
  | none => []

/-- The kwargs payload `update_group_size` builds (lines 296-304): exactly
the supplied fields, inserted in the order MaxSize, MinSize,
DesiredCapacity. -/
def group_size_kwargs (max_size min_size desired_capacity : Option Nat) : List (String × Nat) :=
  size_entry "MaxSize" max_size ++ size_entry "MinSize" min_size ++
    size_entry "DesiredCapacity" desired_capacity

/-- Effect of an honoured `update_auto_scaling_group` call on the remote
configuration: each supplied field overwrites, absent fields are kept. -/
def apply_group_size (max_size min_size desired_capacity : Option Nat) (cp : CPState) : CPState :=
  { cp with
      maxSize := max_size.getD cp.maxSize
      minSize := min_size.getD cp.minSize
      desiredCapacity := desired_capacity.getD cp.desiredCapacity }

/-- `update_group_size` (lines 289-308): return without any call when all
three sizes are `None`; otherwise issue exactly one
`update_auto_scaling_group` call carrying exactly the supplied fields. -/
def update_group_size (max_size min_size desired_capacity : Option Nat) (s : Eff) : Eff :=
  if s.raised then s
  else if max_size = none ∧ min_size = none ∧ desired_capacity = none then s
  else if (tick s).raised then tick s
  else
    { tick s with
        cp := apply_group_size max_size min_size desired_capacity (tick s).cp
        trace := (tick s).trace ++
          [Event.updateAsg (group_size_kwargs max_size min_size desired_capacity)] }

/-- A bounded wait inside the blue-green protocol: records which condition
was polled; the consumed fuel models a possible `TimeoutError`. -/
def wait_op (w : WaitKind) (s : Eff) : Eff :=
  if s.raised then s
  else if (tick s).raised then tick s
  else { tick s with trace := (tick s).trace ++ [Event.wait w] }

/-- `wait_group_size_until` (lines 181-187). -/
def wait_group_size_until (size : Nat) (s : Eff) : Eff :=
  wait_op (WaitKind.groupSize size) s

/-- `wait_instance_size_until` (lines 189-196). -/
def wait_instance_size_until (size : Nat) (s : Eff) : Eff :=
  wait_op (WaitKind.instanceSize size) s

/-- `wait_warm_pool_for` (lines 216-223). -/
def wait_warm_pool_for (states : List String) (s : Eff) : Eff :=
  wait_op (WaitKind.warmPoolFor states) s

/-- `wait_instances_for` (lines 207-214). -/
def wait_instances_for (states : List String) (s : Eff) : Eff :=
  wait_op (WaitKind.instancesFor states) s

/-- Probe condition of `wait_group_size_until`:
`len(self.instances() + self.warm_pool_instances()) == size`. -/
def wait_group_size_ready (size : Nat) (primary warm : List Instance) : Bool :=
  (primary ++ warm).length == size

/-- Probe condition of `wait_instance_size_until`:
`len(self.instances()) == size`. -/
def wait_instance_size_ready (size : Nat) (primary : List Instance) : Bool :=
  primary.length == size

/-- Probe condition of `wait_warm_pool_for`:
`all(i.state in state for i in self.warm_pool_instances())`. -/
def wait_warm_pool_for_ready (states : List String) (warm : List Instance) : Bool :=
  warm.all (fun i => states.contains i.state)

/-- Probe condition of `wait_instances_for`:
`all(i.state in state for i in self.instances())`. -/
def wait_instances_for_ready (states : List String) (primary : List Instance) : Bool :=
  primary.all (fun i => states.contains i.state)

/-- The process list of step 1.5 (lines 370-372). -/
def scaling_processes : List String :=
  ["AlarmNotification", "AZRebalance", "InstanceRefresh"]

/-- `suspend_processes` (lines 247-248): the body is a single
`logger.info(...)` line; no control-plane call is issued. -/
def suspend_processes (processes : List String) (s : Eff) : Eff :=
  if s.raised then s else { s with trace := s.trace ++ [Event.logSuspend processes] }

/-- `resume_processes` (lines 250-251): the body is a single
`logger.info(...)` line; no control-plane call is issued. -/
def resume_processes (processes : List String) (s : Eff) : Eff :=
  if s.raised then s else { s with trace := s.trace ++ [Event.logResume processes] }

/-- `remove_instance_protection` (lines 253-259): one
`set_instance_protection` call with the ids of the currently protected
instances of the given list and `ProtectedFromScaleIn=False`,
unconditionally (also for an empty id list). -/
def remove_instance_protection (instances : List Instance) (s : Eff) : Eff :=
  if s.raised then s
  else if (tick s).raised then tick s
  else
    { tick s with
        trace := (tick s).trace ++
          [Event.setInstanceProtection
            ((instances.filter (fun i => i.protected_from_scale_in)).map (fun i => i.id))
            false] }

/-- `stack.callback(...)`: register a restore action (LIFO). -/
def push_callback (r : Restore) (s : Eff) : Eff :=
  if s.raised then s else { s with callbacks := r :: s.callbacks }

/-- Execute one registered restore action: the `partial` applications of
lines 356-359 and 374 call back into `update_group_size` and
`resume_processes`. -/
def run_restore (r : Restore) (s : Eff) : Eff :=
  match r with
  | Restore.restoreSize mx mn => update_group_size (some mx) (some mn) none s
  | Restore.resumeProcs ps => resume_processes ps s

/-- Execute the registered restore actions front-to-back; since
registration pushes to the front, this is reverse registration order, each
action exactly once. -/
def run_callbacks : List Restore → Eff → Eff
  | [], s => s
  | r :: rest, s => run_callbacks rest (run_restore r s)

/-- `ExitStack` unwind on scope exit: the callbacks run whether or not the
body raised (the pending exception, if any, propagates afterwards), and the
unwind itself is not subject to the failure injection of the body. -/
def run_exit_stack (s : Eff) : Eff :=
  { run_callbacks s.callbacks { s with raised := false, fuel := none } with
      raised := s.raised }

/-- The events a restore action emits when executed on a non-raised state. -/
def restore_events : Restore → List Event
  | Restore.restoreSize mx mn =>
      [Event.updateAsg (group_size_kwargs (some mx) (some mn) none)]
  | Restore.resumeProcs ps => [Event.logResume ps]

/-- The events of an exit-stack unwind over a callback list, front-to-back. -/
def exit_restore_events : List Restore → List Event
  | [] => []
  | r :: rest => restore_events r ++ exit_restore_events rest

/-- Semantic summary of one restore action's effect on the remote
configuration: the size restoration overwrites max and min and leaves the
desired capacity alone; the resume action is a local log only. -/
def restore_cp : Restore → CPState → CPState
  | Restore.restoreSize mx mn, cp => ⟨cp.desiredCapacity, mn, mx⟩
  | Restore.resumeProcs _, cp => cp

/-- Semantic summary of an exit-stack unwind on the remote configuration,
front-to-back over the callback list. -/
def restores_cp : List Restore → CPState → CPState
  | [], cp => cp
  | r :: rest, cp => restores_cp rest (restore_cp r cp)

/-- One statement of the `start_blue_green_deployment` body, named after the
method it invokes. -/
inductive BGOp where
  | stackCallback (r : Restore)
  | updateGroupSize (max_size min_size desired_capacity : Option Nat)
  | waitGroupSizeUntil (size : Nat)
  | waitInstanceSizeUntil (size : Nat)
  | waitWarmPoolFor (states : List String)
  | waitInstancesFor (states : List String)
  | suspendScalingProcesses (processes : List String)
  | removeInstanceProtectionOn (instances : List Instance)
  deriving DecidableEq

/-- Dispatch one statement to the method it invokes. -/
def run_op : BGOp → Eff → Eff
  | BGOp.stackCallback r, s => push_callback r s
  | BGOp.updateGroupSize mx mn dc, s => update_group_size mx mn dc s
  | BGOp.waitGroupSizeUntil size, s => wait_group_size_until size s
  | BGOp.waitInstanceSizeUntil size, s => wait_instance_size_until size s
  | BGOp.waitWarmPoolFor states, s => wait_warm_pool_for states s
  | BGOp.waitInstancesFor states, s => wait_instances_for states s
  | BGOp.suspendScalingProcesses ps, s => suspend_processes ps s
  | BGOp.removeInstanceProtectionOn insts, s => remove_instance_protection insts s

/-- Run a straight-line statement sequence. -/
def run_ops : List BGOp → Eff → Eff
  | [], s => s
  | op :: ops, s => run_ops ops (run_op op s)

/-- The statement sequence of the `ExitStack` body of
`start_blue_green_deployment` (lines 354-407), in source order, over the
pre-mutation snapshot `(D0, N0, X0)`; `step4` is the primary-pool membership
observed by `self.instances()` at step 4. -/
def bg_program (D0 N0 X0 : Nat) (step4 : List Instance) : List BGOp :=
  [BGOp.stackCallback (Restore.restoreSize X0 N0),
   BGOp.updateGroupSize (some (2 * X0)) none none,
   BGOp.waitGroupSizeUntil (2 * X0),
   BGOp.waitWarmPoolFor ["Warmed:Stopped"],
   BGOp.suspendScalingProcesses scaling_processes,
   BGOp.stackCallback (Restore.resumeProcs scaling_processes),
   BGOp.updateGroupSize (some (X0 + D0)) none none,
   BGOp.waitGroupSizeUntil (X0 + D0),
   BGOp.waitWarmPoolFor ["Warmed:Stopped"],
   BGOp.updateGroupSize none (some (2 * D0)) none,
   BGOp.waitInstanceSizeUntil (2 * D0),
   BGOp.waitInstancesFor ["InService"],
   BGOp.removeInstanceProtectionOn step4,
   BGOp.updateGroupSize none (some N0) (some D0),
   BGOp.waitInstanceSizeUntil D0,
   BGOp.waitWarmPoolFor ["Warmed:Stopped"],
   BGOp.updateGroupSize (some X0) none none,
   BGOp.waitGroupSizeUntil X0]

/-- Body of `start_blue_green_deployment`, inside the `ExitStack` scope:
the initial snapshot is read from the incoming state (`group_size`, line
349), then the statements run in source order. -/
def bg_body (step4 : List Instance) (s0 : Eff) : Eff :=
  run_ops (bg_program s0.cp.desiredCapacity s0.cp.minSize s0.cp.maxSize step4) s0

/-- `start_blue_green_deployment`: the body inside the `ExitStack`, then the
unwind on scope exit. -/
def start_blue_green_deployment (step4 : List Instance) (s0 : Eff) : Eff :=
  run_exit_stack (bg_body step4 s0)

/-- Fresh execution state for one blue-green run over the pre-mutation
snapshot `(D0, N0, X0)`. -/
def init_eff (D0 N0 X0 : Nat) (fuel : Option Nat) : Eff :=
  { cp := { desiredCapacity := D0, minSize := N0, maxSize := X0 }
    trace := []
    callbacks := []
    fuel := fuel
    raised := false }

/-- One blue-green run from the snapshot `cp`. -/
def run_blue_green (step4 : List Instance) (cp : CPState) (fuel : Option Nat) : Eff :=
  start_blue_green_deployment step4
    { cp := cp, trace := [], callbacks := [], fuel := fuel, raised := false }

/-- Result of one `wait_with_timeout`-wrapped call: the returned items or
the raised `TimeoutError`, with the number of probe invocations and sleeps
performed. -/
structure PollOutcome where
  result : Except Unit (List Instance)
  invocations : Nat
  sleeps : Nat

/-- The loop of `wait_with_timeout`s wrapper (lines 46-58): probe, return on
satisfaction, otherwise log, sleep and continue; `c` is the iteration
counter, the second argument the remaining iterations.  When the iterations
are exhausted, `TimeoutError` is raised (after a final sleep, as in the
source, where `time.sleep` runs before the loop is found exhausted). -/
def poll_loop (fn : Nat → Bool × List Instance) : Nat → Nat → PollOutcome
  | _, 0 => { result := Except.error (), invocations := 0, sleeps := 0 }
  | c, n + 1 =>
    if (fn c).1 then
      { result := Except.ok (fn c).2, invocations := 1, sleeps := 0 }
    else
      { result := (poll_loop fn (c + 1) n).result
        invocations := (poll_loop fn (c + 1) n).invocations + 1
        sleeps := (poll_loop fn (c + 1) n).sleeps + 1 }

/-- `wait_with_timeout` (lines 41-62): `step_sec = 30`, and the iteration
count is `int(timeout * 60 / step_sec) + 1`; the probe is re-evaluated from
scratch each iteration. -/
def wait_with_timeout (timeout : Nat) (fn : Nat → Bool × List Instance) : PollOutcome :=
  poll_loop fn 0 (timeout * 60 / 30 + 1)

/-- The terminal-status tuple of `wait_instance_refresh_completion`
(lines 236-237). -/
def instance_refresh_expected_status : List String :=
  ["successful", "failed", "cancelled", "rollbackfailed", "rollbacksuccessful"]

/-- Python's `str.lower()` over the character sequence (the statuses
compared in this program are ASCII). -/
def py_lower (s : String) : String :=
  String.mk (s.data.map Char.toLower)

/-- The probe condition of `wait_instance_refresh_completion` (line 238):
`status.lower() in expected_status`. -/
def instance_refresh_terminal (status : String) : Bool :=
  instance_refresh_expected_status.contains (py_lower status)

/-- The wrapped probe of `wait_instance_refresh_completion` (lines 225-245)
over the stream of statuses the control plane reports at each poll: ready on
a terminal status, and the returned item list is always `[]`. -/
def instance_refresh_probe (st : Nat → String) (c : Nat) : Bool × List Instance :=
  (instance_refresh_terminal (st c), [])

/-- `start_rolling_update` (lines 331-341): one `start_instance_refresh`
call with `Strategy='Rolling'` and `Preferences={'MinHealthyPercentage': 90}`,
then the bounded wait on the returned refresh-operation id whose status
stream is `st`. -/
def start_rolling_update (st : Nat → String) : Event × PollOutcome :=
  (Event.startInstanceRefresh "Rolling" 90,
    wait_with_timeout 60 (instance_refresh_probe st))

/-- Remote state as seen by the dispatch level: group configuration, the
group's launch-template reference (`$Default`, `$Latest` or a pinned
version), the launch template's default and latest versions, the two
memberships, and whether a warm pool is configured. -/
structure ASG where
  desiredCapacity : Nat
  minSize : Nat
  maxSize : Nat
  ltVersionRef : String
  ltDefault : String
  ltLatest : String
  instances : List Instance
  warmInstances : List Instance
  warmPoolCreated : Bool
  deriving DecidableEq

/-- `launch_template_version` (lines 134-146): resolve the group's current
launch-template reference symbolically; a read, no mutation. -/
def launch_template_version (s : ASG) : String :=
  if s.ltVersionRef = "$Default" then s.ltDefault
  else if s.ltVersionRef = "$Latest" then s.ltLatest
  else s.ltVersionRef

/-- `update_launch_template_version` (lines 261-287): the three cases on the
group's launch-template reference; returns the resolved version, the state
after any mutation, and the issued calls. -/
def update_launch_template_version (version : String) (s : ASG) :
    String × ASG × List Event :=
  if s.ltVersionRef = "$Default" then
    if version ≠ s.ltDefault then
      (version, { s with ltDefault := version },
        [Event.modifyLaunchTemplateDefault version])
    else (version, s, [])
  else if s.ltVersionRef = "$Latest" then (s.ltLatest, s, [])
  else
    if version ≠ s.ltVersionRef then
      (version, { s with ltVersionRef := version },
        [Event.updateGroupLaunchTemplate version])
    else (version, s, [])

/-- `is_updated` (lines 128-132): every instance of the combined primary +
warm-pool membership has the given version. -/
def is_updated (version : String) (s : ASG) : Bool :=
  (s.instances ++ s.warmInstances).all (fun i => i.version == version)

/-- The target version `refresh_instance` resolves before its convergence
check (lines 313-316). -/
def resolved_target (version : Option String) (s : ASG) : String :=
  match version with
  | none => launch_template_version s
  | some v => (update_launch_template_version v s).1

/-- The state after the version-resolution phase of `refresh_instance`
(lines 313-316): the explicit-version path may mutate the launch-template
bookkeeping, the no-version path reads only. -/
def resolution_state (version : Option String) (s : ASG) : ASG :=
  match version with
  | none => s
  | some v => (update_launch_template_version v s).2.1

/-- The calls issued by the version-resolution phase of `refresh_instance`. -/
def resolution_calls (version : Option String) (s : ASG) : List Event :=
  match version with
  | none => []
  | some v => (update_launch_template_version v s).2.2

/-- The externally driven effect of one protocol execution: protocols mutate
group sizes and cause instance launches/terminations; they leave the
launch-template bookkeeping and the warm-pool configuration flag alone. -/
structure ProtoOutcome where
  desiredCapacity : Nat
  minSize : Nat
  maxSize : Nat
  instances : List Instance
  warmInstances : List Instance
  deriving DecidableEq

/-- Apply a protocol outcome to the dispatch-level state. -/
def apply_protocol_outcome (o : ProtoOutcome) (s : ASG) : ASG :=
  { s with
      desiredCapacity := o.desiredCapacity
      minSize := o.minSize
      maxSize := o.maxSize
      instances := o.instances
      warmInstances := o.warmInstances }

/-- Result of one `refresh_instance` invocation: final state, issued calls,
number of protocol executions, and whether the run completed without the
final `assert self.is_updated(lt_version)` failing. -/
structure RefreshResult where
  state : ASG
  calls : List Event
  protocolRuns : Nat
  ok : Bool
  deriving DecidableEq

/-- `refresh_instance` (lines 310-329): resolve the target version, return
immediately when already converged, otherwise execute one protocol
(blue-green when a warm pool is configured, rolling otherwise, recorded as a
`protocolExecution` event with outcome `o`) and assert convergence. -/
def refresh_instance (o : ProtoOutcome) (version : Option String) (s : ASG) :
    RefreshResult :=
  let resolved :=
    match version with
    | none => (launch_template_version s, s, ([] : List Event))
    | some v => update_launch_template_version v s
  let lt_version := resolved.1
  let s1 := resolved.2.1
  let calls1 := resolved.2.2
  if is_updated lt_version s1 then
    { state := s1, calls := calls1, protocolRuns := 0, ok := true }
  else
    { state := apply_protocol_outcome o s1
      calls := calls1 ++
        [Event.protocolExecution (if s1.warmPoolCreated then "blue-green" else "rolling")]
      protocolRuns := 1
      ok := is_updated lt_version (apply_protocol_outcome o s1) }

/-- Group-size mutations and refresh-starting calls, the mutations the
no-op paths of `refresh_instance` must not issue. -/
def size_or_refresh_call : Event → Bool
  | Event.updateAsg _ => true
  | Event.startInstanceRefresh _ _ => true
  | _ => false

/-- Launch-template mutations (promoting a default version, re-pinning the
group's reference). -/
def lt_mutation_call : Event → Bool
  | Event.modifyLaunchTemplateDefault _ => true
  | Event.updateGroupLaunchTemplate _ => true
  | _ => false

/-- `set_instance_protection` calls, for filtering traces. -/
def protection_call : Event → Bool
  | Event.setInstanceProtection _ _ => true
  | _ => false

/-- `SuspendProcesses`/`ResumeProcesses` control-plane calls, for filtering
traces. -/
def process_control_call : Event → Bool
  | Event.suspendProcessesCall _ => true
  | Event.resumeProcessesCall _ => true
  | _ => false

/-! Step lemmas: each models one source statement applied to an explicit
execution state, and rewrites a run one operation at a time. -/

lemma push_callback_step (r : Restore) (cp : CPState) (tr : List Event)
    (cbs : List Restore) (f : Option Nat) :
    push_callback r ⟨cp, tr, cbs, f, false⟩ = ⟨cp, tr, r :: cbs, f, false⟩ := rfl

lemma update_max_step (a : Nat) (d n x : Nat) (tr : List Event)
    (cbs : List Restore) :
    update_group_size (some a) none none ⟨⟨d, n, x⟩, tr, cbs, none, false⟩ =
      ⟨⟨d, n, a⟩, tr ++ [Event.updateAsg [("MaxSize", a)]], cbs, none, false⟩ := rfl

lemma update_min_step (a : Nat) (d n x : Nat) (tr : List Event)
    (cbs : List Restore) :
    update_group_size none (some a) none ⟨⟨d, n, x⟩, tr, cbs, none, false⟩ =
      ⟨⟨d, a, x⟩, tr ++ [Event.updateAsg [("MinSize", a)]], cbs, none, false⟩ := rfl

lemma update_min_desired_step (a b : Nat) (d n x : Nat) (tr : List Event)
    (cbs : List Restore) :
    update_group_size none (some a) (some b) ⟨⟨d, n, x⟩, tr, cbs, none, false⟩ =
      ⟨⟨b, a, x⟩, tr ++ [Event.updateAsg [("MinSize", a), ("DesiredCapacity", b)]],
        cbs, none, false⟩ := rfl

lemma update_max_min_step (a b : Nat) (d n x : Nat) (tr : List Event)
    (cbs : List Restore) :
    update_group_size (some a) (some b) none ⟨⟨d, n, x⟩, tr, cbs, none, false⟩ =
      ⟨⟨d, b, a⟩, tr ++ [Event.updateAsg [("MaxSize", a), ("MinSize", b)]],
        cbs, none, false⟩ := rfl

lemma wait_op_step (w : WaitKind) (cp : CPState) (tr : List Event)
    (cbs : List Restore) :
    wait_op w ⟨cp, tr, cbs, none, false⟩ =
      ⟨cp, tr ++ [Event.wait w], cbs, none, false⟩ := rfl

lemma suspend_processes_step (ps : List String) (cp : CPState) (tr : List Event)
    (cbs : List Restore) (f : Option Nat) :
    suspend_processes ps ⟨cp, tr, cbs, f, false⟩ =
      ⟨cp, tr ++ [Event.logSuspend ps], cbs, f, false⟩ := rfl

lemma resume_processes_step (ps : List String) (cp : CPState) (tr : List Event)
    (cbs : List Restore) (f : Option Nat) :
    resume_processes ps ⟨cp, tr, cbs, f, false⟩ =
      ⟨cp, tr ++ [Event.logResume ps], cbs, f, false⟩ := rfl

lemma remove_instance_protection_step (insts : List Instance) (cp : CPState)
    (tr : List Event) (cbs : List Restore) :
    remove_instance_protection insts ⟨cp, tr, cbs, none, false⟩ =
      ⟨cp, tr ++ [Event.setInstanceProtection
          ((insts.filter (fun i => i.protected_from_scale_in)).map (fun i => i.id))
          false], cbs, none, false⟩ := rfl

/-- Full computation of the fuel-free (`fuel = none`) blue-green body: the
remote configuration ends at `(D0, N0, X0)` (step 5 restores the desired
capacity, step 6 the maximum), the sixteen body events are emitted in source
order, and both restore actions are registered, most recent first. -/
lemma bg_body_none (D0 N0 X0 : Nat) (step4 : List Instance) :
    bg_body step4 (init_eff D0 N0 X0 none) =
      ⟨⟨D0, N0, X0⟩,
       [Event.updateAsg [("MaxSize", 2 * X0)],
        Event.wait (WaitKind.groupSize (2 * X0)),
        Event.wait (WaitKind.warmPoolFor ["Warmed:Stopped"]),
        Event.logSuspend scaling_processes,
        Event.updateAsg [("MaxSize", X0 + D0)],
        Event.wait (WaitKind.groupSize (X0 + D0)),
        Event.wait (WaitKind.warmPoolFor ["Warmed:Stopped"]),
        Event.updateAsg [("MinSize", 2 * D0)],
        Event.wait (WaitKind.instanceSize (2 * D0)),
        Event.wait (WaitKind.instancesFor ["InService"]),
        Event.setInstanceProtection
          ((step4.filter (fun i => i.protected_from_scale_in)).map (fun i => i.id)) false,
        Event.updateAsg [("MinSize", N0), ("DesiredCapacity", D0)],
        Event.wait (WaitKind.instanceSize D0),
        Event.wait (WaitKind.warmPoolFor ["Warmed:Stopped"]),
        Event.updateAsg [("MaxSize", X0)],
        Event.wait (WaitKind.groupSize X0)],
       [Restore.resumeProcs scaling_processes, Restore.restoreSize X0 N0],
       none, false⟩ := by
  simp only [bg_body, bg_program, init_eff, run_ops, run_op,
    wait_group_size_until, wait_instance_size_until, wait_warm_pool_for,
    wait_instances_for,
    push_callback_step, update_max_step, update_min_step, update_min_desired_step,
    update_max_min_step, wait_op_step, suspend_processes_step, resume_processes_step,
    remove_instance_protection_step,
    List.nil_append, List.cons_append, List.append_nil]

/-- Full computation of a fuel-free blue-green run, unwind included: the
scope exit resumes the (locally logged) processes and re-issues the size
restoration on top of the already-restored values. -/
lemma run_blue_green_none (D0 N0 X0 : Nat) (step4 : List Instance) :
    run_blue_green step4 ⟨D0, N0, X0⟩ none =
      ⟨⟨D0, N0, X0⟩,
       [Event.updateAsg [("MaxSize", 2 * X0)],
        Event.wait (WaitKind.groupSize (2 * X0)),
        Event.wait (WaitKind.warmPoolFor ["Warmed:Stopped"]),
        Event.logSuspend scaling_processes,
        Event.updateAsg [("MaxSize", X0 + D0)],
        Event.wait (WaitKind.groupSize (X0 + D0)),
        Event.wait (WaitKind.warmPoolFor ["Warmed:Stopped"]),
        Event.updateAsg [("MinSize", 2 * D0)],
        Event.wait (WaitKind.instanceSize (2 * D0)),
        Event.wait (WaitKind.instancesFor ["InService"]),
        Event.setInstanceProtection
          ((step4.filter (fun i => i.protected_from_scale_in)).map (fun i => i.id)) false,
        Event.updateAsg [("MinSize", N0), ("DesiredCapacity", D0)],
        Event.wait (WaitKind.instanceSize D0),
        Event.wait (WaitKind.warmPoolFor ["Warmed:Stopped"]),
        Event.updateAsg [("MaxSize", X0)],
        Event.wait (WaitKind.groupSize X0),
        Event.logResume scaling_processes,
        Event.updateAsg [("MaxSize", X0), ("MinSize", N0)]],
       [Restore.resumeProcs scaling_processes, Restore.restoreSize X0 N0],
       none, false⟩ := by
  show run_exit_stack (bg_body step4 (init_eff D0 N0 X0 none)) = _
  rw [bg_body_none]
  simp only [run_exit_stack, run_callbacks, run_restore,
    resume_processes_step, update_max_min_step,
    List.nil_append, List.cons_append, List.append_nil]

/-! Raised-state and injected-failure step lemmas, and projection lemmas for
the rollback analysis. -/

lemma update_group_size_raised (mx mn dc : Option Nat) (cp : CPState)
    (tr : List Event) (cbs : List Restore) (f : Option Nat) :
    update_group_size mx mn dc ⟨cp, tr, cbs, f, true⟩ = ⟨cp, tr, cbs, f, true⟩ := rfl

lemma wait_op_raised (w : WaitKind) (cp : CPState) (tr : List Event)
    (cbs : List Restore) (f : Option Nat) :
    wait_op w ⟨cp, tr, cbs, f, true⟩ = ⟨cp, tr, cbs, f, true⟩ := rfl

lemma suspend_processes_raised (ps : List String) (cp : CPState) (tr : List Event)
    (cbs : List Restore) (f : Option Nat) :
    suspend_processes ps ⟨cp, tr, cbs, f, true⟩ = ⟨cp, tr, cbs, f, true⟩ := rfl

lemma resume_processes_raised (ps : List String) (cp : CPState) (tr : List Event)
    (cbs : List Restore) (f : Option Nat) :
    resume_processes ps ⟨cp, tr, cbs, f, true⟩ = ⟨cp, tr, cbs, f, true⟩ := rfl

lemma push_callback_raised (r : Restore) (cp : CPState) (tr : List Event)
    (cbs : List Restore) (f : Option Nat) :
    push_callback r ⟨cp, tr, cbs, f, true⟩ = ⟨cp, tr, cbs, f, true⟩ := rfl

lemma remove_instance_protection_raised (insts : List Instance) (cp : CPState)
    (tr : List Event) (cbs : List Restore) (f : Option Nat) :
    remove_instance_protection insts ⟨cp, tr, cbs, f, true⟩ = ⟨cp, tr, cbs, f, true⟩ := rfl

lemma update_max_fail0_step (a : Nat) (cp : CPState) (tr : List Event)
    (cbs : List Restore) :
    update_group_size (some a) none none ⟨cp, tr, cbs, some 0, false⟩ =
      ⟨cp, tr, cbs, some 0, true⟩ := rfl

lemma update_group_size_callbacks (mx mn dc : Option Nat) (s : Eff) :
    (update_group_size mx mn dc s).callbacks = s.callbacks := by
  unfold update_group_size
  split_ifs <;> rfl

lemma wait_op_callbacks (w : WaitKind) (s : Eff) :
    (wait_op w s).callbacks = s.callbacks := by
  unfold wait_op
  split_ifs <;> rfl

lemma suspend_processes_callbacks (ps : List String) (s : Eff) :
    (suspend_processes ps s).callbacks = s.callbacks := by
  unfold suspend_processes
  split_ifs <;> rfl

lemma remove_instance_protection_callbacks (insts : List Instance) (s : Eff) :
    (remove_instance_protection insts s).callbacks = s.callbacks := by
  unfold remove_instance_protection
  split_ifs <;> rfl

lemma push_callback_callbacks (r : Restore) (s : Eff) :
    (push_callback r s).callbacks = if s.raised then s.callbacks else r :: s.callbacks := by
  unfold push_callback
  split_ifs <;> rfl

lemma ite_callbacks_or (c : Bool) (rp rs : Restore) :
    (if c then [rs] else [rp, rs]) = [rp, rs] ∨ (if c then [rs] else [rp, rs]) = [rs] := by
  cases c <;> simp

/-- Whatever the injected failure point, the body registers the size
restoration before any remote interaction, and the resume action is the only
other restore ever registered. -/
lemma bg_body_callbacks (D0 N0 X0 : Nat) (step4 : List Instance) (fuel : Option Nat) :
    (bg_body step4 (init_eff D0 N0 X0 fuel)).callbacks =
        [Restore.resumeProcs scaling_processes, Restore.restoreSize X0 N0] ∨
      (bg_body step4 (init_eff D0 N0 X0 fuel)).callbacks = [Restore.restoreSize X0 N0] := by
  simp only [bg_body, bg_program, init_eff, run_ops, run_op,
    wait_group_size_until, wait_instance_size_until, wait_warm_pool_for,
    wait_instances_for,
    update_group_size_callbacks, wait_op_callbacks, suspend_processes_callbacks,
    remove_instance_protection_callbacks, push_callback_callbacks]
  simp only [Bool.false_eq_true, if_false]
  exact ite_callbacks_or _ _ _

lemma run_restore_spec (r : Restore) (cp : CPState) (tr : List Event)
    (cbs : List Restore) :
    run_restore r ⟨cp, tr, cbs, none, false⟩ =
      ⟨restore_cp r cp, tr ++ restore_events r, cbs, none, false⟩ := by
  cases r with
  | restoreSize mx mn => cases cp with | mk d n x => rfl
  | resumeProcs ps => rfl

lemma run_callbacks_spec (cbs : List Restore) : ∀ (cp : CPState) (tr : List Event)
    (cl : List Restore),
    run_callbacks cbs ⟨cp, tr, cl, none, false⟩ =
      ⟨restores_cp cbs cp, tr ++ exit_restore_events cbs, cl, none, false⟩ := by
  induction cbs with
  | nil => intro cp tr cl; simp [run_callbacks, restores_cp, exit_restore_events]
  | cons r rest ih =>
    intro cp tr cl
    simp only [run_callbacks, run_restore_spec, restores_cp, exit_restore_events, ih,
      List.append_assoc]

lemma restores_cp_desired (cbs : List Restore) : ∀ cp : CPState,
    (restores_cp cbs cp).desiredCapacity = cp.desiredCapacity := by
  induction cbs with
  | nil => intro cp; rfl
  | cons r rest ih =>
    intro cp
    cases r with
    | restoreSize mx mn => simp [restores_cp, restore_cp, ih]
    | resumeProcs ps => simp [restores_cp, restore_cp, ih]

lemma run_exit_stack_spec (b : Eff) :
    run_exit_stack b =
      ⟨restores_cp b.callbacks b.cp, b.trace ++ exit_restore_events b.callbacks,
        b.callbacks, none, b.raised⟩ := by
  simp only [run_exit_stack, run_callbacks_spec]

/-- Injected failure at the very first remote interaction (the step-1
mutation): the run raises, the body emits nothing, and the unwind still
restores `(minSize, maxSize) = (1, 4)`. -/
lemma run_blue_green_fail0 :
    run_blue_green [] ⟨2, 1, 4⟩ (some 0) =
      ⟨⟨2, 1, 4⟩, [Event.updateAsg [("MaxSize", 4), ("MinSize", 1)]],
        [Restore.restoreSize 4 1], none, true⟩ := by
  have hbody : bg_body [] (init_eff 2 1 4 (some 0)) =
      ⟨⟨2, 1, 4⟩, [], [Restore.restoreSize 4 1], some 0, true⟩ := by
    simp only [bg_body, bg_program, init_eff, run_ops, run_op,
      wait_group_size_until, wait_instance_size_until, wait_warm_pool_for,
      wait_instances_for,
      push_callback_step, update_max_fail0_step, update_group_size_raised,
      wait_op_raised, suspend_processes_raised, resume_processes_raised,
      push_callback_raised, remove_instance_protection_raised]
  show run_exit_stack (bg_body [] (init_eff 2 1 4 (some 0))) = _
  rw [hbody, run_exit_stack_spec]
  simp [restores_cp, restore_cp, exit_restore_events, restore_events, group_size_kwargs,
    size_entry]

/-- C1: a blue-green run from the pre-mutation snapshot `(D0, N0, X0)`
issues the step mutations `maxSize := 2*X0`, `maxSize := X0 + D0`,
`minSize := 2*D0`, `minSize := N0` with `desiredCapacity := D0`, and
`maxSize := X0`, in this order, each followed by exactly the table's waits
(steps 1 and 2: total primary+warm membership equals the new `maxSize`, and
warm pool `Warmed:Stopped`; step 3: primary-pool size `2*D0` and primary
instances `InService`; step 5: primary-pool size `D0` and warm pool
`Warmed:Stopped`; step 6: total membership `X0`), and on normal completion
the configuration ends at `(minSize, maxSize) = (N0, X0)` (the trailing two
events are the scope-exit rollback actions, which re-issue the same values);
the wait conditions mean exactly the stated predicates over the observed
memberships. -/
theorem blue_green_capacity_sequence (D0 N0 X0 : Nat) (step4 : List Instance) :
    (run_blue_green step4 ⟨D0, N0, X0⟩ none).trace =
      [Event.updateAsg [("MaxSize", 2 * X0)],
       Event.wait (WaitKind.groupSize (2 * X0)),
       Event.wait (WaitKind.warmPoolFor ["Warmed:Stopped"]),
       Event.logSuspend scaling_processes,
       Event.updateAsg [("MaxSize", X0 + D0)],
       Event.wait (WaitKind.groupSize (X0 + D0)),
       Event.wait (WaitKind.warmPoolFor ["Warmed:Stopped"]),
       Event.updateAsg [("MinSize", 2 * D0)],
       Event.wait (WaitKind.instanceSize (2 * D0)),
       Event.wait (WaitKind.instancesFor ["InService"]),
       Event.setInstanceProtection
         ((step4.filter (fun i => i.protected_from_scale_in)).map (fun i => i.id)) false,
       Event.updateAsg [("MinSize", N0), ("DesiredCapacity", D0)],
       Event.wait (WaitKind.instanceSize D0),
       Event.wait (WaitKind.warmPoolFor ["Warmed:Stopped"]),
       Event.updateAsg [("MaxSize", X0)],
       Event.wait (WaitKind.groupSize X0),
       Event.logResume scaling_processes,
       Event.updateAsg [("MaxSize", X0), ("MinSize", N0)]] ∧
    (run_blue_green step4 ⟨D0, N0, X0⟩ none).cp.minSize = N0 ∧
    (run_blue_green step4 ⟨D0, N0, X0⟩ none).cp.maxSize = X0 ∧
    (run_blue_green step4 ⟨D0, N0, X0⟩ none).cp.desiredCapacity = D0 ∧
    (run_blue_green step4 ⟨D0, N0, X0⟩ none).raised = false ∧
    (∀ (p w : List Instance) (n : Nat),
      wait_group_size_ready n p w = true ↔ p.length + w.length = n) ∧
    (∀ (p : List Instance) (n : Nat),
      wait_instance_size_ready n p = true ↔ p.length = n) ∧
    (∀ w : List Instance,
      wait_warm_pool_for_ready ["Warmed:Stopped"] w = true ↔
        ∀ i ∈ w, i.state = "Warmed:Stopped") ∧
    (∀ p : List Instance,
      wait_instances_for_ready ["InService"] p = true ↔
        ∀ i ∈ p, i.state = "InService") := by
  rw [run_blue_green_none]
  refine ⟨rfl, rfl, rfl, rfl, rfl, ?_, ?_, ?_, ?_⟩
  · intro p w n
    simp [wait_group_size_ready]
  · intro p n
    simp [wait_instance_size_ready]
  · intro w
    simp [wait_warm_pool_for_ready, List.all_eq_true]
  · intro p
    simp [wait_instances_for_ready, List.all_eq_true]

/-- C2: for every failure injection (including none, i.e. normal
completion), the exit-stack unwind of a blue-green run executes exactly the
registered restore actions, front-to-back over the LIFO callback list (i.e.
in reverse registration order, each exactly once, appending exactly their
events after the body's trace), leaves `(minSize, maxSize) = (N0, X0)`,
never touches the desired capacity (the final desired capacity is whatever
the body left), re-raises the body's pending exception, and the only
registered actions are the size restoration (always, registered before any
remote interaction) and the resume of the suspended scaling processes; the
concrete conjunct shows a run whose very first remote interaction raises:
it ends raised with `(minSize, maxSize)` restored to `(1, 4)` and the
unwind's only remote mutation carries `MaxSize`/`MinSize` only. -/
theorem blue_green_rollback (D0 N0 X0 : Nat) (step4 : List Instance)
    (fuel : Option Nat) :
    (start_blue_green_deployment step4 (init_eff D0 N0 X0 fuel)).cp.minSize = N0 ∧
    (start_blue_green_deployment step4 (init_eff D0 N0 X0 fuel)).cp.maxSize = X0 ∧
    (start_blue_green_deployment step4 (init_eff D0 N0 X0 fuel)).cp.desiredCapacity =
      (bg_body step4 (init_eff D0 N0 X0 fuel)).cp.desiredCapacity ∧
    (start_blue_green_deployment step4 (init_eff D0 N0 X0 fuel)).trace =
      (bg_body step4 (init_eff D0 N0 X0 fuel)).trace ++
        exit_restore_events (bg_body step4 (init_eff D0 N0 X0 fuel)).callbacks ∧
    (start_blue_green_deployment step4 (init_eff D0 N0 X0 fuel)).raised =
      (bg_body step4 (init_eff D0 N0 X0 fuel)).raised ∧
    ((bg_body step4 (init_eff D0 N0 X0 fuel)).callbacks =
        [Restore.resumeProcs scaling_processes, Restore.restoreSize X0 N0] ∨
      (bg_body step4 (init_eff D0 N0 X0 fuel)).callbacks =
        [Restore.restoreSize X0 N0]) ∧
    run_blue_green [] ⟨2, 1, 4⟩ (some 0) =
      ⟨⟨2, 1, 4⟩, [Event.updateAsg [("MaxSize", 4), ("MinSize", 1)]],
        [Restore.restoreSize 4 1], none, true⟩ := by
  have hcb := bg_body_callbacks D0 N0 X0 step4 fuel
  have hexit := run_exit_stack_spec (bg_body step4 (init_eff D0 N0 X0 fuel))
  have hrun : start_blue_green_deployment step4 (init_eff D0 N0 X0 fuel) =
      run_exit_stack (bg_body step4 (init_eff D0 N0 X0 fuel)) := rfl
  rw [hrun, hexit]
  refine ⟨?_, ?_, ?_, rfl, rfl, hcb, run_blue_green_fail0⟩
  · rcases hcb with h | h <;> rw [h] <;> simp [restores_cp, restore_cp]
  · rcases hcb with h | h <;> rw [h] <;> simp [restores_cp, restore_cp]
  · exact restores_cp_desired _ _

/-- C4: contrary to the specified behaviour, step 1.5 issues no
`SuspendProcesses` or `ResumeProcesses` control-plane call at all, for any
snapshot and membership: `suspend_processes`/`resume_processes` are log-only
methods, so a full normal run's trace contains no process-control call, only
the two local log lines (between step 1 and step 2, and at scope exit). -/
theorem suspend_processes_logs_only (D0 N0 X0 : Nat) (step4 : List Instance) :
    ((run_blue_green step4 ⟨D0, N0, X0⟩ none).trace.filter process_control_call) = [] ∧
    Event.logSuspend scaling_processes ∈ (run_blue_green step4 ⟨D0, N0, X0⟩ none).trace ∧
    Event.logResume scaling_processes ∈ (run_blue_green step4 ⟨D0, N0, X0⟩ none).trace := by
  rw [run_blue_green_none]
  refine ⟨?_, ?_, ?_⟩
  · simp [process_control_call]
  · simp
  · simp

/-- C9: `remove_instance_protection` issues, synchronously, exactly one
`set_instance_protection` call whose id list is exactly the ids of the
currently protected instances of the observed primary membership, always
with `ProtectedFromScaleIn=False`, also when that list is empty; in a full
normal blue-green run the only protection call in the trace is this one, and
it is immediately followed by the step-5 mutation (no wait in between). -/
theorem remove_protection_spec (insts : List Instance) (cp : CPState)
    (tr : List Event) (cbs : List Restore) (D0 N0 X0 : Nat) (step4 : List Instance) :
    remove_instance_protection insts ⟨cp, tr, cbs, none, false⟩ =
      ⟨cp, tr ++ [Event.setInstanceProtection
          ((insts.filter (fun i => i.protected_from_scale_in)).map (fun i => i.id))
          false], cbs, none, false⟩ ∧
    remove_instance_protection [] ⟨cp, tr, cbs, none, false⟩ =
      ⟨cp, tr ++ [Event.setInstanceProtection [] false], cbs, none, false⟩ ∧
    ((run_blue_green step4 ⟨D0, N0, X0⟩ none).trace.filter protection_call) =
      [Event.setInstanceProtection
        ((step4.filter (fun i => i.protected_from_scale_in)).map (fun i => i.id)) false] ∧
    (∃ pre post, (run_blue_green step4 ⟨D0, N0, X0⟩ none).trace =
      pre ++ Event.setInstanceProtection
          ((step4.filter (fun i => i.protected_from_scale_in)).map (fun i => i.id)) false ::
        Event.updateAsg [("MinSize", N0), ("DesiredCapacity", D0)] :: post) := by
  refine ⟨remove_instance_protection_step insts cp tr cbs, ?_, ?_, ?_⟩
  · exact remove_instance_protection_step [] cp tr cbs
  · rw [run_blue_green_none]
    simp [protection_call]
  · refine ⟨[Event.updateAsg [("MaxSize", 2 * X0)],
       Event.wait (WaitKind.groupSize (2 * X0)),
       Event.wait (WaitKind.warmPoolFor ["Warmed:Stopped"]),
       Event.logSuspend scaling_processes,
       Event.updateAsg [("MaxSize", X0 + D0)],
       Event.wait (WaitKind.groupSize (X0 + D0)),
       Event.wait (WaitKind.warmPoolFor ["Warmed:Stopped"]),
       Event.updateAsg [("MinSize", 2 * D0)],
       Event.wait (WaitKind.instanceSize (2 * D0)),
       Event.wait (WaitKind.instancesFor ["InService"])],
      [Event.wait (WaitKind.instanceSize D0),
       Event.wait (WaitKind.warmPoolFor ["Warmed:Stopped"]),
       Event.updateAsg [("MaxSize", X0)],
       Event.wait (WaitKind.groupSize X0),
       Event.logResume scaling_processes,
       Event.updateAsg [("MaxSize", X0), ("MinSize", N0)]], ?_⟩
    rw [run_blue_green_none]
    simp

/-- C10: with all three sizes absent, `update_group_size` returns with the
state (and so the remote configuration and the call trace) unchanged;
otherwise it issues exactly one `update_auto_scaling_group` call whose
payload contains exactly the supplied fields — each key is present with a
value exactly when that argument was supplied, and no key beyond the three
size keys ever occurs. -/
theorem update_group_size_frame (mx mn dc : Option Nat) (s : Eff)
    (cp : CPState) (tr : List Event) (cbs : List Restore) :
    update_group_size none none none s = s ∧
    (mx.isSome ∨ mn.isSome ∨ dc.isSome →
      update_group_size mx mn dc ⟨cp, tr, cbs, none, false⟩ =
        ⟨apply_group_size mx mn dc cp,
          tr ++ [Event.updateAsg (group_size_kwargs mx mn dc)], cbs, none, false⟩) ∧
    (∀ v : Nat, ("MaxSize", v) ∈ group_size_kwargs mx mn dc ↔ mx = some v) ∧
    (∀ v : Nat, ("MinSize", v) ∈ group_size_kwargs mx mn dc ↔ mn = some v) ∧
    (∀ v : Nat, ("DesiredCapacity", v) ∈ group_size_kwargs mx mn dc ↔ dc = some v) ∧
    (∀ p ∈ group_size_kwargs mx mn dc,
      p.1 = "MaxSize" ∨ p.1 = "MinSize" ∨ p.1 = "DesiredCapacity") := by
  have aux : ∀ (k : String) (o : Option Nat) (p : String × Nat),
      p ∈ size_entry k o → p.1 = k := by
    intro k o p hp
    cases o with
    | none => simp [size_entry] at hp
    | some v =>
      simp [size_entry] at hp
      subst hp
      rfl
  refine ⟨?_, ?_, ?_, ?_, ?_, ?_⟩
  · unfold update_group_size
    split_ifs with h1 h2 h3 <;> first
      | rfl
      | exact absurd ⟨rfl, rfl, rfl⟩ h2
  · intro h
    rcases mx with _ | a <;> rcases mn with _ | b <;> rcases dc with _ | c <;>
      first
        | exact rfl
        | simp at h
  · intro v
    rcases mx with _ | a <;> rcases mn with _ | b <;> rcases dc with _ | c <;>
      simp [group_size_kwargs, size_entry] <;> exact eq_comm
  · intro v
    rcases mx with _ | a <;> rcases mn with _ | b <;> rcases dc with _ | c <;>
      simp [group_size_kwargs, size_entry] <;> exact eq_comm
  · intro v
    rcases mx with _ | a <;> rcases mn with _ | b <;> rcases dc with _ | c <;>
      simp [group_size_kwargs, size_entry] <;> exact eq_comm
  · intro p hp
    unfold group_size_kwargs at hp
    rcases List.mem_append.mp hp with h | h
    · rcases List.mem_append.mp h with h1 | h1
      · exact Or.inl (aux _ _ _ h1)
      · exact Or.inr (Or.inl (aux _ _ _ h1))
    · exact Or.inr (Or.inr (aux _ _ _ h))

/-! Bounded-poller lemmas. -/

lemma poll_loop_invocations_le (fn : Nat → Bool × List Instance) :
    ∀ (n c : Nat), (poll_loop fn c n).invocations ≤ n := by
  intro n
  induction n with
  | zero => intro c; simp [poll_loop]
  | succ n ih =>
    intro c
    by_cases h : (fn c).1
    · simp [poll_loop, h]
    · simp only [poll_loop, h, Bool.false_eq_true, if_false]
      have := ih (c + 1)
      omega

lemma poll_loop_never (fn : Nat → Bool × List Instance)
    (hall : ∀ j, (fn j).1 = false) :
    ∀ (n c : Nat), poll_loop fn c n = ⟨Except.error (), n, n⟩ := by
  intro n
  induction n with
  | zero => intro c; rfl
  | succ n ih =>
    intro c
    simp [poll_loop, hall c, ih (c + 1)]

lemma poll_loop_first (fn : Nat → Bool × List Instance) :
    ∀ (n c k : Nat), k < n → (fn (c + k)).1 = true →
      (∀ j, j < k → (fn (c + j)).1 = false) →
      poll_loop fn c n = ⟨Except.ok (fn (c + k)).2, k + 1, k⟩ := by
  intro n
  induction n with
  | zero => intro c k hk; exact absurd hk (Nat.not_lt_zero k)
  | succ n ih =>
    intro c k hk htrue hfalse
    cases k with
    | zero =>
      rw [Nat.add_zero] at htrue
      simp [poll_loop, htrue, Nat.add_zero]
    | succ k =>
      have h0 : (fn c).1 = false := by
        have := hfalse 0 (Nat.succ_pos k)
        rwa [Nat.add_zero] at this
      have hrest : poll_loop fn (c + 1) n = ⟨Except.ok (fn (c + (k + 1))).2, k + 1, k⟩ := by
        have h1 : (fn (c + 1 + k)).1 = true := by
          rwa [show c + 1 + k = c + (k + 1) by omega]
        have h2 : ∀ j, j < k → (fn (c + 1 + j)).1 = false := by
          intro j hj
          have := hfalse (j + 1) (by omega)
          rwa [show c + (j + 1) = c + 1 + j by omega] at this
        have := ih (c + 1) k (by omega) h1 h2
        rwa [show c + 1 + k = c + (k + 1) by omega] at this
      simp [poll_loop, h0, hrest]

/-- C3: the poller of `wait_with_timeout` invokes its probe at most
`t*60/30 + 1` times; when the probe is first satisfied on its k-th
invocation with k within that bound, it returns exactly that invocation's
observed items after exactly k invocations and k-1 sleeps; and when no
invocation is ever satisfied it raises the timeout error after exactly
`t*60/30 + 1` invocations (having slept after every unsatisfied probe). -/
theorem wait_with_timeout_spec (t k : Nat) (fn : Nat → Bool × List Instance) :
    (wait_with_timeout t fn).invocations ≤ t * 60 / 30 + 1 ∧
    (1 ≤ k → k ≤ t * 60 / 30 + 1 → (fn (k - 1)).1 = true →
      (∀ j, j < k - 1 → (fn j).1 = false) →
      wait_with_timeout t fn = ⟨Except.ok (fn (k - 1)).2, k, k - 1⟩) ∧
    ((∀ j, (fn j).1 = false) →
      wait_with_timeout t fn =
        ⟨Except.error (), t * 60 / 30 + 1, t * 60 / 30 + 1⟩) := by
  refine ⟨poll_loop_invocations_le fn _ 0, ?_, ?_⟩
  · intro h1 h2 htrue hfalse
    have hlt : k - 1 < t * 60 / 30 + 1 := by omega
    have := poll_loop_first fn (t * 60 / 30 + 1) 0 (k - 1) hlt
      (by rwa [Nat.zero_add]) (by intro j hj; have := hfalse j hj; rwa [Nat.zero_add])
    rw [wait_with_timeout, this, Nat.zero_add]
    have : k - 1 + 1 = k := by omega
    rw [this]
  · intro hall
    exact poll_loop_never fn hall _ 0

/-! Dispatch-level lemmas: version resolution, convergence, refresh. -/

lemma update_ltv_membership (v : String) (s : ASG) :
    (update_launch_template_version v s).2.1.instances = s.instances ∧
    (update_launch_template_version v s).2.1.warmInstances = s.warmInstances ∧
    (update_launch_template_version v s).2.1.warmPoolCreated = s.warmPoolCreated := by
  unfold update_launch_template_version
  split_ifs <;> exact ⟨rfl, rfl, rfl⟩

lemma resolution_state_membership (version : Option String) (s : ASG) :
    (resolution_state version s).instances = s.instances ∧
    (resolution_state version s).warmInstances = s.warmInstances := by
  cases version with
  | none => exact ⟨rfl, rfl⟩
  | some v => exact ⟨(update_ltv_membership v s).1, (update_ltv_membership v s).2.1⟩

lemma is_updated_eq_true_iff (V : String) (s : ASG) :
    is_updated V s = true ↔ ∀ i ∈ s.instances ++ s.warmInstances, i.version = V := by
  simp only [is_updated, List.all_eq_true, List.mem_append, beq_iff_eq]

lemma is_updated_membership_congr (V : String) (s1 s2 : ASG)
    (h1 : s1.instances = s2.instances) (h2 : s1.warmInstances = s2.warmInstances) :
    is_updated V s1 = is_updated V s2 := by
  unfold is_updated
  rw [h1, h2]

lemma refresh_instance_eq (o : ProtoOutcome) (version : Option String) (s : ASG) :
    refresh_instance o version s =
      if is_updated (resolved_target version s) (resolution_state version s) then
        { state := resolution_state version s, calls := resolution_calls version s,
          protocolRuns := 0, ok := true }
      else
        { state := apply_protocol_outcome o (resolution_state version s)
          calls := resolution_calls version s ++
            [Event.protocolExecution
              (if (resolution_state version s).warmPoolCreated then "blue-green" else "rolling")]
          protocolRuns := 1
          ok := is_updated (resolved_target version s)
            (apply_protocol_outcome o (resolution_state version s)) } := by
  cases version with
  | none => rfl
  | some v => rfl

lemma refresh_ok_updated (o : ProtoOutcome) (version : Option String) (s : ASG)
    (h : (refresh_instance o version s).ok = true) :
    is_updated (resolved_target version s) (refresh_instance o version s).state = true := by
  rw [refresh_instance_eq] at h ⊢
  by_cases hc : is_updated (resolved_target version s) (resolution_state version s)
  · simp [hc]
  · simpa [hc] using h

lemma refresh_runs_le (o : ProtoOutcome) (version : Option String) (s : ASG) :
    (refresh_instance o version s).protocolRuns ≤ 1 := by
  rw [refresh_instance_eq]
  by_cases hc : is_updated (resolved_target version s) (resolution_state version s) <;>
    simp [hc]

lemma resolution_calls_no_size (version : Option String) (s : ASG) :
    ((resolution_calls version s).filter size_or_refresh_call) = [] := by
  cases version with
  | none => rfl
  | some v =>
    simp only [resolution_calls]
    unfold update_launch_template_version
    split_ifs <;> simp [size_or_refresh_call]

/-- C6: the convergence predicate `is_updated V` holds exactly when every
instance of the combined primary + warm-pool membership has version `V`; in
particular it is vacuously true on an empty combined membership (the empty
case is not special-cased to false). -/
theorem is_updated_spec (V : String) (s : ASG) :
    (is_updated V s = true ↔ ∀ i ∈ s.instances ++ s.warmInstances, i.version = V) ∧
    is_updated V { s with instances := [], warmInstances := [] } = true :=
  ⟨is_updated_eq_true_iff V s, rfl⟩

/-- C5: when every instance of the combined membership already has the
resolved target version at entry, `refresh_instance` returns immediately:
no protocol execution, only the resolution calls (which contain no
group-size and no refresh-starting mutation), membership untouched; and a
second invocation with the same explicit argument and the same resolved
target after a successful run is such a no-op, so two sequential
invocations perform at most one protocol execution. -/
theorem refresh_idempotent (o o2 : ProtoOutcome) (version : Option String) (s : ASG) :
    ((∀ i ∈ s.instances ++ s.warmInstances, i.version = resolved_target version s) →
      refresh_instance o version s =
        { state := resolution_state version s, calls := resolution_calls version s,
          protocolRuns := 0, ok := true } ∧
      ((refresh_instance o version s).calls.filter size_or_refresh_call) = [] ∧
      (refresh_instance o version s).state.instances = s.instances ∧
      (refresh_instance o version s).state.warmInstances = s.warmInstances) ∧
    ((refresh_instance o version s).ok = true →
      resolved_target version (refresh_instance o version s).state =
        resolved_target version s →
      (refresh_instance o2 version (refresh_instance o version s).state).protocolRuns = 0 ∧
      (refresh_instance o2 version (refresh_instance o version s).state).ok = true ∧
      ((refresh_instance o2 version (refresh_instance o version s).state).calls.filter
        size_or_refresh_call) = [] ∧
      (refresh_instance o2 version (refresh_instance o version s).state).state.instances =
        (refresh_instance o version s).state.instances ∧
      (refresh_instance o2 version (refresh_instance o version s).state).state.warmInstances =
        (refresh_instance o version s).state.warmInstances ∧
      (refresh_instance o version s).protocolRuns +
        (refresh_instance o2 version (refresh_instance o version s).state).protocolRuns ≤ 1) := by
  constructor
  · intro h
    have hmem := resolution_state_membership version s
    have hcond : is_updated (resolved_target version s) (resolution_state version s) = true := by
      rw [is_updated_eq_true_iff]
      intro i hi
      rw [hmem.1, hmem.2] at hi
      exact h i hi
    have heq : refresh_instance o version s =
        { state := resolution_state version s, calls := resolution_calls version s,
          protocolRuns := 0, ok := true } := by
      rw [refresh_instance_eq, if_pos hcond]
    refine ⟨heq, ?_, ?_, ?_⟩
    · rw [heq]
      exact resolution_calls_no_size version s
    · rw [heq]
      exact hmem.1
    · rw [heq]
      exact hmem.2
  · intro hok hsame
    have hupd := refresh_ok_updated o version s hok
    have hmem2 := resolution_state_membership version (refresh_instance o version s).state
    have hcond2 : is_updated (resolved_target version (refresh_instance o version s).state)
        (resolution_state version (refresh_instance o version s).state) = true := by
      rw [hsame,
        is_updated_membership_congr _ _ (refresh_instance o version s).state hmem2.1 hmem2.2]
      exact hupd
    have heq2 : refresh_instance o2 version (refresh_instance o version s).state =
        { state := resolution_state version (refresh_instance o version s).state,
          calls := resolution_calls version (refresh_instance o version s).state,
          protocolRuns := 0, ok := true } := by
      rw [refresh_instance_eq, if_pos hcond2]
    refine ⟨?_, ?_, ?_, ?_, ?_, ?_⟩
    · rw [heq2]
    · rw [heq2]
    · rw [heq2]
      exact resolution_calls_no_size version (refresh_instance o version s).state
    · rw [heq2]
      exact hmem2.1
    · rw [heq2]
      exact hmem2.2
    · rw [heq2]
      have h1 := refresh_runs_le o version s
      simpa using h1

/-- C7: the rolling path starts the native refresh with strategy `Rolling`
and `MinHealthyPercentage = 90`; the wait's terminal set is, up to the
case-insensitive comparison, exactly {successful, failed, cancelled,
rollbackfailed, rollbacksuccessful} — every status in that set (failure
flavours included) ends the wait without raising, any other status keeps
polling — and a group that did not converge is caught by the top-level
convergence assertion of `refresh_instance`, not by this wait. -/
theorem rolling_update_spec (st : Nat → String) (k : Nat) :
    (start_rolling_update st).1 = Event.startInstanceRefresh "Rolling" 90 ∧
    (∀ s2 : String, instance_refresh_terminal s2 = true ↔
      (py_lower s2 = "successful" ∨ py_lower s2 = "failed" ∨ py_lower s2 = "cancelled" ∨
        py_lower s2 = "rollbackfailed" ∨ py_lower s2 = "rollbacksuccessful")) ∧
    (instance_refresh_terminal "Successful" = true ∧
      instance_refresh_terminal "Failed" = true ∧
      instance_refresh_terminal "Cancelled" = true ∧
      instance_refresh_terminal "RollbackFailed" = true ∧
      instance_refresh_terminal "RollbackSuccessful" = true ∧
      instance_refresh_terminal "InProgress" = false ∧
      instance_refresh_terminal "Pending" = false) ∧
    (k < 60 * 60 / 30 + 1 → (∀ j, j < k → instance_refresh_terminal (st j) = false) →
      instance_refresh_terminal (st k) = true →
      (start_rolling_update st).2 = ⟨Except.ok [], k + 1, k⟩) ∧
    (∀ (o : ProtoOutcome) (version : Option String) (s : ASG),
      is_updated (resolved_target version s) (refresh_instance o version s).state = false →
      (refresh_instance o version s).ok = false) := by
  refine ⟨rfl, ?_, by decide, ?_, ?_⟩
  · intro s2
    simp [instance_refresh_terminal, instance_refresh_expected_status]
  · intro hk hfalse htrue
    have h := poll_loop_first (instance_refresh_probe st) (60 * 60 / 30 + 1) 0 k hk
      (by rw [Nat.zero_add]; exact htrue)
      (by intro j hj; rw [Nat.zero_add]; exact hfalse j hj)
    show wait_with_timeout 60 (instance_refresh_probe st) = _
    rw [wait_with_timeout, h]
    rfl
  · intro o version s h
    rw [refresh_instance_eq] at h ⊢
    by_cases hc : is_updated (resolved_target version s) (resolution_state version s)
    · rw [if_pos hc] at h
      exact absurd h (by simp [hc])
    · rw [if_neg hc] at h ⊢
      exact h

/-- C8: with an explicit version, resolution follows exactly the three cases
on the group's launch-template reference — promote to default only when the
version differs from the current default (result is the explicit version);
ignore the explicit version under `$Latest` (result is the latest version,
no mutation); re-pin the group only when the version differs from the pinned
reference (result is the explicit version) — and with no explicit version,
`launch_template_version` resolves the current reference symbolically and
the refresh's resolution phase issues no launch-template mutation. -/
theorem update_launch_template_version_cases (v : String) (s : ASG) :
    (s.ltVersionRef = "$Default" →
      (update_launch_template_version v s).1 = v ∧
      (update_launch_template_version v s).2.2 =
        (if v = s.ltDefault then [] else [Event.modifyLaunchTemplateDefault v]) ∧
      (update_launch_template_version v s).2.1 =
        (if v = s.ltDefault then s else { s with ltDefault := v })) ∧
    (s.ltVersionRef = "$Latest" →
      (update_launch_template_version v s).1 = s.ltLatest ∧
      (update_launch_template_version v s).2.1 = s ∧
      (update_launch_template_version v s).2.2 = []) ∧
    (s.ltVersionRef ≠ "$Default" → s.ltVersionRef ≠ "$Latest" →
      (update_launch_template_version v s).1 = v ∧
      (update_launch_template_version v s).2.2 =
        (if v = s.ltVersionRef then [] else [Event.updateGroupLaunchTemplate v]) ∧
      (update_launch_template_version v s).2.1 =
        (if v = s.ltVersionRef then s else { s with ltVersionRef := v })) ∧
    (s.ltVersionRef = "$Default" → launch_template_version s = s.ltDefault) ∧
    (s.ltVersionRef = "$Latest" → launch_template_version s = s.ltLatest) ∧
    (s.ltVersionRef ≠ "$Default" → s.ltVersionRef ≠ "$Latest" →
      launch_template_version s = s.ltVersionRef) ∧
    (∀ o : ProtoOutcome,
      ((refresh_instance o none s).calls.filter lt_mutation_call) = []) := by
  refine ⟨?_, ?_, ?_, ?_, ?_, ?_, ?_⟩
  · intro h
    by_cases hd : v = s.ltDefault <;> simp [update_launch_template_version, h, hd]
  · intro h
    simp [update_launch_template_version, h]
  · intro h1 h2
    by_cases hv : v = s.ltVersionRef <;>
      simp [update_launch_template_version, h1, h2, hv]
  · intro h
    simp [launch_template_version, h]
  · intro h
    simp [launch_template_version, h]
  · intro h1 h2
    simp [launch_template_version, h1, h2]
  · intro o
    rw [refresh_instance_eq]
    by_cases hc : is_updated (resolved_target none s) (resolution_state none s) <;>
      simp [hc, resolution_calls, lt_mutation_call]
